import Mathlib

/-!
# Failover primary controller and power-sensor wrappers

A shallow embedding of `common/primary.go` and `powersensor/wrappers.go`.

The controller is concurrent: caller goroutines run `UsePrimary`, `TryAllReadings`,
`TryPrimary` and `Close` while the goroutine registered by `PollPrimaryForHealth`
runs in the background.  Each goroutine is a program counter; a step is one access
to shared state (the mutex-protected flag, the unbuffered channel, the logger, the
workers' context).  Interleavings are lists of actions.

`TryReadingOrFail`, `CallAllFunctions` and the type `Call` belong to the package but
are not part of the sources embedded here; what they return is taken as a parameter
(`Env`), one value per invocation.
-/

namespace Failover

/-- A Go `error` value; `Error` is its text. -/
structure GoError where
  msg : String
deriving DecidableEq, Repr

/-- The method `err.Error()`. -/
def GoError.Error (e : GoError) : String := e.msg

/-- Severity of a logged message. -/
inductive Level where
  | debug
  | info
  | warn
  | error
deriving DecidableEq, Repr

/-- One message emitted on the logger. -/
structure LogEntry where
  level : Level
  text : String
deriving DecidableEq, Repr

/-- The call `logger.Warnf("primary sensor failed: %s", err.Error())` (lines 69 and 89). -/
def Warnf (logger : List LogEntry) (err : GoError) : List LogEntry :=
  logger ++ [⟨Level.warn, "primary sensor failed: " ++ err.Error⟩]

/-- Program counter of a goroutine registered by `PollPrimaryForHealth` (lines 103-127). -/
inductive WorkerPc where
  /-- At the outer `select` (lines 105-110). -/
  | waitSignal
  /-- At the inner `select` of the loop labelled `L` (lines 114-117). -/
  | polling
  /-- Inside `L`, `CallAllFunctions` returned nil (line 120); `setUsePrimary(true)` is next. -/
  | probeSucceeded
  /-- Returned on `ctx.Done()` (line 108 or 116). -/
  | exited
deriving DecidableEq, Repr

/-- The worker is inside the polling sub-loop `L` (lines 113-125). -/
def WorkerPc.inPolling : WorkerPc → Bool
  | .polling => true
  | .probeSucceeded => true
  | _ => false

/-- What the two helpers of the package return at one instant: they depend on the
primary sensor's behaviour at that time, so each invocation gets its own `Env`. -/
structure Env (Sensor Call Extra Dyn : Type) where
  /-- The value `TryReadingOrFail(ctx, timeout, sensor, call, extra)` returns. -/
  TryReadingOrFail : Int → Sensor → Call → Option Extra → Dyn × Option GoError
  /-- The value `CallAllFunctions(ctx, sensor, timeout, extra, calls)` returns. -/
  CallAllFunctions : Sensor → Int → Option Extra → List Call → Option GoError

/-- A Go type `T` as `TryPrimary[T]` uses it: its zero value and the type assertion
`any(readings).(T)`, which is `none` when the assertion panics. -/
structure GoType (Dyn T : Type) where
  zero : T
  assert : Dyn → Option T

/-- The struct `Primary` (lines 14-25).  `workers` lists the goroutines registered
with the `StoppableWorkers` and `workersCtxDone` says whether their context is
cancelled; the channel is unbuffered, so its only state is whether it is closed;
`logger` is the list of messages emitted so far; the mutex `mu` is the atomicity of
the steps that touch `usePrimary`. -/
structure Primary (Sensor Call : Type) where
  workers : List WorkerPc
  workersCtxDone : Bool
  logger : List LogEntry
  primarySensor : Sensor
  pollPrimaryChanClosed : Bool
  timeout : Int
  usePrimary : Bool
  calls : List Call
deriving DecidableEq, Repr

section Model

variable {Sensor Call Extra Dyn T : Type}

/-- The method `setUsePrimary` (lines 58-62). -/
def Primary.setUsePrimary (p : Primary Sensor Call) (val : Bool) : Primary Sensor Call :=
  { p with usePrimary := val }

/-- The method `PollPrimaryForHealth` (lines 100-128): one goroutine is added to the
workers; it starts at the outer `select`. -/
def Primary.PollPrimaryForHealth (p : Primary Sensor Call) : Primary Sensor Call :=
  { p with workers := p.workers ++ [WorkerPc.waitSignal] }

/-- Worker `j` takes the value of a send on `pollPrimaryChan` (line 109): possible
only when it stands at the outer `select`; it then enters the loop `L`. -/
def Primary.recvAt (p : Primary Sensor Call) (j : Nat) : Option (Primary Sensor Call) :=
  match p.workers[j]? with
  | some WorkerPc.waitSignal => some { p with workers := p.workers.set j WorkerPc.polling }
  | _ => none

/-- A send `p.pollPrimaryChan <- true` (lines 71 and 92) with worker `j` as the
receiver.  Outer `none`: the sender stays blocked; inner `none`: the channel is closed
and the send panics. -/
def Primary.send (p : Primary Sensor Call) (j : Nat) : Option (Option (Primary Sensor Call)) :=
  if p.pollPrimaryChanClosed then some none
  else (p.recvAt j).map some

/-- What can happen to a worker goroutine at one of its `select` statements. -/
inductive WorkerEvent (Sensor Call Extra Dyn : Type) where
  /-- The case `<-ctx.Done()` is taken (lines 107 and 115). -/
  | ctxDone
  /-- The case `<-p.pollPrimaryChan` is taken on a closed channel (line 109). -/
  | recvClosed
  /-- The case `<-ticker.C` is taken and the probe of line 118 runs. -/
  | tick (env : Env Sensor Call Extra Dyn)
  /-- Lines 121-122: `setUsePrimary(true)` and `break L`. -/
  | setUsable

/-- One step of worker goroutine `j` (lines 104-126); `none` when the event is not
possible where the worker stands. -/
def Primary.workerStep (p : Primary Sensor Call) (j : Nat)
    (ev : WorkerEvent Sensor Call Extra Dyn) : Option (Primary Sensor Call) :=
  match p.workers[j]?, ev with
  | some WorkerPc.waitSignal, WorkerEvent.ctxDone =>
      if p.workersCtxDone then some { p with workers := p.workers.set j WorkerPc.exited }
      else none
  | some WorkerPc.waitSignal, WorkerEvent.recvClosed =>
      if p.pollPrimaryChanClosed then some { p with workers := p.workers.set j WorkerPc.polling }
      else none
  | some WorkerPc.polling, WorkerEvent.ctxDone =>
      if p.workersCtxDone then some { p with workers := p.workers.set j WorkerPc.exited }
      else none
  | some WorkerPc.polling, WorkerEvent.tick env =>
      match env.CallAllFunctions p.primarySensor p.timeout none p.calls with
      | none => some { p with workers := p.workers.set j WorkerPc.probeSucceeded }
      | some _ => some p
  | some WorkerPc.probeSucceeded, WorkerEvent.setUsable =>
      some { p.setUsePrimary true with workers := p.workers.set j WorkerPc.waitSignal }
  | _, _ => none

/-- Program counter of a caller goroutine running one exported operation. -/
inductive Thread (Call Extra T : Type) where
  /-- In `UsePrimary`, about to read the flag under the lock (lines 53-55). -/
  | usePrimary
  /-- The call of `UsePrimary` returned `b`. -/
  | usePrimaryRet (b : Bool)
  /-- In `TryAllReadings`, about to run the probe (line 67). -/
  | tarProbe
  /-- In `TryAllReadings`, the probe returned `err`; line 69 is next. -/
  | tarWarn (err : GoError)
  /-- In `TryAllReadings` at line 70. -/
  | tarSet
  /-- In `TryAllReadings` at the send of line 71. -/
  | tarSend
  /-- The call of `TryAllReadings` returned. -/
  | tarRet
  /-- In `TryPrimary`, about to call `TryReadingOrFail` (line 81). -/
  | tpCall (extra : Option Extra) (call : Call)
  /-- In `TryPrimary`, the call returned `err`; line 89 is next. -/
  | tpWarn (err : GoError)
  /-- In `TryPrimary` at the send of line 92. -/
  | tpSend (err : GoError)
  /-- In `TryPrimary` at line 93. -/
  | tpSet (err : GoError)
  /-- The call of `TryPrimary` returned `(reading, err)`. -/
  | tpRet (reading : T) (err : Option GoError)
  /-- In `Close` at line 131. -/
  | closeChan
  /-- In `Close` at line 133, about to cancel the context of the workers. -/
  | closeStop
  /-- In `Close` inside `workers.Stop()`, waiting for the goroutines to return. -/
  | closeWait
  /-- The call of `Close` returned. -/
  | closeRet
  /-- The goroutine panicked. -/
  | panicked (msg : String)
deriving DecidableEq, Repr

/-- One step of a caller goroutine; `j` is the worker that receives when the step is
a send.  `none` when the goroutine is blocked or has finished. -/
def Thread.step (ty : GoType Dyn T) (env : Env Sensor Call Extra Dyn) (j : Nat)
    (p : Primary Sensor Call) :
    Thread Call Extra T → Option (Primary Sensor Call × Thread Call Extra T)
  | .usePrimary => some (p, .usePrimaryRet p.usePrimary)
  | .tarProbe =>
      match env.CallAllFunctions p.primarySensor p.timeout none p.calls with
      | none => some (p, .tarRet)
      | some err => some (p, .tarWarn err)
  | .tarWarn err => some ({ p with logger := Warnf p.logger err }, .tarSet)
  | .tarSet => some (p.setUsePrimary false, .tarSend)
  | .tarSend =>
      match p.send j with
      | none => none
      | some none => some (p, .panicked "send on closed channel")
      | some (some p') => some (p', .tarRet)
  | .tpCall extra call =>
      match env.TryReadingOrFail p.timeout p.primarySensor call extra with
      | (readings, none) =>
          match ty.assert readings with
          | some reading => some (p, .tpRet reading none)
          | none => some (p, .panicked "interface conversion")
      | (_, some err) => some (p, .tpWarn err)
  | .tpWarn err => some ({ p with logger := Warnf p.logger err }, .tpSend err)
  | .tpSend err =>
      match p.send j with
      | none => none
      | some none => some (p, .panicked "send on closed channel")
      | some (some p') => some (p', .tpSet err)
  | .tpSet err => some (p.setUsePrimary false, .tpRet ty.zero (some err))
  | .closeChan =>
      if p.pollPrimaryChanClosed then some (p, .panicked "close of closed channel")
      else some ({ p with pollPrimaryChanClosed := true }, .closeStop)
  | .closeStop => some ({ p with workersCtxDone := true }, .closeWait)
  | .closeWait =>
      if p.workers.all (fun w => w == WorkerPc.exited) then some (p, .closeRet) else none
  | .usePrimaryRet _ => none
  | .tarRet => none
  | .tpRet _ _ => none
  | .closeRet => none
  | .panicked _ => none

/-- A caller goroutine runs on its own, no other goroutine stepping in between (the
receiving worker `j` apart, at a send), for at most `n` steps. -/
def Thread.run (ty : GoType Dyn T) (env : Env Sensor Call Extra Dyn) (j : Nat) :
    Nat → Primary Sensor Call → Thread Call Extra T →
      Primary Sensor Call × Thread Call Extra T
  | 0, p, t => (p, t)
  | n + 1, p, t =>
      match Thread.step ty env j p t with
      | none => (p, t)
      | some (p', t') => Thread.run ty env j n p' t'

/-- The method `UsePrimary` (lines 52-56). -/
def Primary.UsePrimary (p : Primary Sensor Call) : Bool := p.usePrimary

/-- The method `TryAllReadings` (lines 66-73), run on its own with worker `j` as the
receiver of its send: the state it leaves and where it stands. -/
def Primary.TryAllReadings (p : Primary Sensor Call) (env : Env Sensor Call Extra Dyn)
    (j : Nat) : Primary Sensor Call × Thread Call Extra Unit :=
  Thread.run ⟨(), fun _ => some ()⟩ env j 4 p Thread.tarProbe

/-- The function `TryPrimary` (lines 76-95), run on its own with worker `j` as the
receiver of its send: the state it leaves and where it stands. -/
def TryPrimary (ty : GoType Dyn T) (env : Env Sensor Call Extra Dyn) (j : Nat)
    (s : Primary Sensor Call) (extra : Option Extra) (call : Call) :
    Primary Sensor Call × Thread Call Extra T :=
  Thread.run ty env j 4 s (Thread.tpCall extra call)

/-- The method `Close` (lines 130-135), run on its own. -/
def Primary.Close (p : Primary Sensor Call) (env : Env Sensor Call Extra Dyn) :
    Primary Sensor Call × Thread Call Extra Unit :=
  Thread.run ⟨(), fun _ => some ()⟩ env 0 3 p Thread.closeChan

/-- The function `CreatePrimary` (lines 27-50): the struct literal, the worker
goroutine, then `TryAllReadings`, whose send only the worker just started (index 0)
can receive.  `none` if `TryAllReadings` does not return. -/
def CreatePrimary (env : Env Sensor Call Extra Dyn) (timeout : Int) (logger : List LogEntry)
    (primarySensor : Sensor) (calls : List Call) : Option (Primary Sensor Call) :=
  let primary : Primary Sensor Call :=
    { workers := []
      workersCtxDone := false
      logger := logger
      primarySensor := primarySensor
      pollPrimaryChanClosed := false
      timeout := timeout
      usePrimary := true
      calls := calls }
  let primary := primary.PollPrimaryForHealth
  match primary.TryAllReadings env 0 with
  | (p, Thread.tarRet) => some p
  | _ => none

/-- The caller goroutine has finished its operation (returned or panicked). -/
def Thread.finished : Thread Call Extra T → Bool
  | .usePrimaryRet _ => true
  | .tarRet => true
  | .tpRet _ _ => true
  | .closeRet => true
  | .panicked _ => true
  | _ => false

/-- The caller goroutine is in `Close` past line 131: it has closed the channel. -/
def Thread.closedChan : Thread Call Extra T → Bool
  | .closeStop => true
  | .closeWait => true
  | .closeRet => true
  | _ => false

/-- The exported operations a caller can start on a controller. -/
inductive Op (Call Extra : Type) where
  | UsePrimary
  | TryAllReadings
  | TryPrimary (extra : Option Extra) (call : Call)
  | Close

/-- Where a caller goroutine stands when it enters an operation. -/
def Op.entry : Op Call Extra → Thread Call Extra T
  | .UsePrimary => Thread.usePrimary
  | .TryAllReadings => Thread.tarProbe
  | .TryPrimary extra call => Thread.tpCall extra call
  | .Close => Thread.closeChan

/-- The running system: the controller and the caller goroutines operating on it. -/
structure Sys (Sensor Call Extra T : Type) where
  primary : Primary Sensor Call
  callers : List (Thread Call Extra T)
deriving DecidableEq, Repr

/-- One scheduling decision. -/
inductive Action (Sensor Call Extra Dyn : Type) where
  /-- A new caller goroutine enters an operation. -/
  | call (op : Op Call Extra)
  /-- Caller `i` takes its next step; `j` is the receiving worker if it is a send. -/
  | caller (i j : Nat) (env : Env Sensor Call Extra Dyn)
  /-- Worker `j` takes a step. -/
  | worker (j : Nat) (ev : WorkerEvent Sensor Call Extra Dyn)

/-- One step of the running system; `none` when the chosen goroutine cannot move. -/
def Sys.step (ty : GoType Dyn T) (a : Action Sensor Call Extra Dyn)
    (σ : Sys Sensor Call Extra T) : Option (Sys Sensor Call Extra T) :=
  match a with
  | .call op => some ⟨σ.primary, σ.callers ++ [op.entry]⟩
  | .caller i j env =>
      match σ.callers[i]? with
      | none => none
      | some t =>
          match Thread.step ty env j σ.primary t with
          | none => none
          | some (p', t') => some ⟨p', σ.callers.set i t'⟩
  | .worker j ev =>
      match σ.primary.workerStep j ev with
      | none => none
      | some p' => some ⟨p', σ.callers⟩

/-- An interleaving: the actions are taken in order; `none` if one is not possible. -/
def Sys.run (ty : GoType Dyn T) :
    List (Action Sensor Call Extra Dyn) → Sys Sensor Call Extra T →
      Option (Sys Sensor Call Extra T)
  | [], σ => some σ
  | a :: as, σ =>
      match Sys.step ty a σ with
      | none => none
      | some σ' => Sys.run ty as σ'

/-- A caller past line 131 of `Close` implies a closed channel. -/
def CloseInv (σ : Sys Sensor Call Extra T) : Prop :=
  ∀ t ∈ σ.callers, t.closedChan = true → σ.primary.pollPrimaryChanClosed = true

end Model

/-! ## Concrete controllers used as test inputs -/

namespace Sample

/-- An error returned by the primary. -/
def boom : GoError := ⟨"boom"⟩

/-- A primary that fails every call and every probe. -/
def failing : Env Unit Nat Unit Nat :=
  ⟨fun _ _ _ _ => (0, some boom), fun _ _ _ _ => some boom⟩

/-- A primary that answers every call with the call's number. -/
def healthy : Env Unit Nat Unit Nat :=
  ⟨fun _ _ call _ => (call, none), fun _ _ _ _ => none⟩

/-- The readings are numbers and so is `T`. -/
def natType : GoType Nat Nat := ⟨0, some⟩

/-- The controller `CreatePrimary` builds over a healthy primary. -/
def started : Primary Unit Nat :=
  { workers := [WorkerPc.waitSignal]
    workersCtxDone := false
    logger := []
    primarySensor := ()
    pollPrimaryChanClosed := false
    timeout := 50
    usePrimary := true
    calls := [1, 2, 3] }

/-- The controller `CreatePrimary` builds over a failing primary. -/
def failedStart : Primary Unit Nat :=
  { started with
    workers := [WorkerPc.polling]
    logger := [⟨Level.warn, "primary sensor failed: boom"⟩]
    usePrimary := false }

/-- The controller `started` after a failing `TryPrimary` of another caller has sent
its signal (line 92) and not yet cleared the flag (line 93). -/
def inFlight : Primary Unit Nat :=
  { started with
    workers := [WorkerPc.polling]
    logger := [⟨Level.warn, "primary sensor failed: boom"⟩] }

/-- The controller `started` after `Close` has returned. -/
def closed : Primary Unit Nat :=
  { started with
    workers := [WorkerPc.exited]
    workersCtxDone := true
    pollPrimaryChanClosed := true }

/-- The controller `started` after the interleaving `raceTrace`. -/
def stranded : Primary Unit Nat :=
  { started with
    logger := [⟨Level.warn, "primary sensor failed: boom"⟩]
    usePrimary := false }

/-- A failing `TryPrimary` whose signal wakes the worker, which probes a primary that
has recovered and sets the flag before the caller reaches line 93. -/
def raceTrace : List (Action Unit Nat Unit Nat) :=
  [ Action.call (Op.TryPrimary none 7),
    Action.caller 0 0 failing,
    Action.caller 0 0 failing,
    Action.caller 0 0 failing,
    Action.worker 0 (WorkerEvent.tick healthy),
    Action.worker 0 WorkerEvent.setUsable,
    Action.caller 0 0 failing ]

/-- One caller runs `Close` to its return, the worker leaving on `ctx.Done()`. -/
def closeTrace : List (Action Unit Nat Unit Nat) :=
  [ Action.call Op.Close,
    Action.caller 0 0 healthy,
    Action.caller 0 0 healthy,
    Action.worker 0 WorkerEvent.ctxDone,
    Action.caller 0 0 healthy ]

end Sample

/-! ## The power-sensor wrappers (`powersensor/wrappers.go`) -/

namespace powersensor

/-- A Go `float64`, as its IEEE-754 bit pattern. -/
structure float64 where
  bits : Nat
deriving DecidableEq, Repr

/-- The value of `math.NaN()`: `Float64frombits(0x7FF8000000000001)`. -/
def NaN : float64 := ⟨0x7FF8000000000001⟩

/-- The interface `powersensor.PowerSensor`, restricted to the methods the wrappers
use; each field is what the method returns. -/
structure PowerSensor (Ctx Extra : Type) where
  Voltage : Ctx → Option Extra → float64 × Bool × Option GoError
  Current : Ctx → Option Extra → float64 × Bool × Option GoError
  Power : Ctx → Option Extra → float64 × Option GoError

/-- A `resource.Sensor`: `powerSensor` is the result of the type assertion
`s.(powersensor.PowerSensor)`, `none` when the dynamic type does not implement it. -/
structure Sensor (Ctx Extra : Type) where
  powerSensor : Option (PowerSensor Ctx Extra)

/-- A method invoked on the resource, with its arguments. -/
inductive Invocation (Ctx Extra : Type) where
  | Voltage (ctx : Ctx) (extra : Option Extra)
  | Current (ctx : Ctx) (extra : Option Extra)
  | Power (ctx : Ctx) (extra : Option Extra)
deriving DecidableEq, Repr

/-- The struct `voltageVals` (lines 15-18). -/
structure voltageVals where
  volts : float64
  isAc : Bool
deriving DecidableEq, Repr

/-- The struct `currentVals` (lines 34-37). -/
structure currentVals where
  amps : float64
  isAc : Bool
deriving DecidableEq, Repr

/-- The result of a wrapper: the returned pair and the methods it invoked on the
resource, in order. -/
structure Outcome (Ctx Extra R : Type) where
  result : R
  err : Option GoError
  invoked : List (Invocation Ctx Extra)

variable {Ctx Extra : Type}

/-- The function `convertToPowerSensor` (lines 65-71). -/
def convertToPowerSensor (s : Sensor Ctx Extra) : Except GoError (PowerSensor Ctx Extra) :=
  match s.powerSensor with
  | none => .error ⟨"type assertion to power sensor failed"⟩
  | some ps => .ok ps

/-- The function `voltageWrapper` (lines 20-32). -/
def voltageWrapper (ctx : Ctx) (s : Sensor Ctx Extra) (extra : Option Extra) :
    Outcome Ctx Extra (Option voltageVals) :=
  match convertToPowerSensor s with
  | .error err => ⟨none, some err, []⟩
  | .ok ps =>
      match ps.Voltage ctx extra with
      | (_, _, some err) => ⟨none, some err, [Invocation.Voltage ctx extra]⟩
      | (volts, isAc, none) => ⟨some ⟨volts, isAc⟩, none, [Invocation.Voltage ctx extra]⟩

/-- The function `currentWrapper` (lines 39-51). -/
def currentWrapper (ctx : Ctx) (s : Sensor Ctx Extra) (extra : Option Extra) :
    Outcome Ctx Extra (Option currentVals) :=
  match convertToPowerSensor s with
  | .error err => ⟨none, some err, []⟩
  | .ok ps =>
      match ps.Current ctx extra with
      | (_, _, some err) => ⟨none, some err, [Invocation.Current ctx extra]⟩
      | (amps, isAc, none) => ⟨some ⟨amps, isAc⟩, none, [Invocation.Current ctx extra]⟩

/-- The function `powerWrapper` (lines 53-63). -/
def powerWrapper (ctx : Ctx) (s : Sensor Ctx Extra) (extra : Option Extra) :
    Outcome Ctx Extra float64 :=
  match convertToPowerSensor s with
  | .error err => ⟨NaN, some err, []⟩
  | .ok ps =>
      match ps.Power ctx extra with
      | (_, some err) => ⟨NaN, some err, [Invocation.Power ctx extra]⟩
      | (watts, none) => ⟨watts, none, [Invocation.Power ctx extra]⟩

/-- A power sensor reading 12 V DC, 2 A DC and 24 W (bit patterns of the floats). -/
def sampleMeter : PowerSensor Unit Unit :=
  { Voltage := fun _ _ => (⟨0x4028000000000000⟩, false, none)
    Current := fun _ _ => (⟨0x4000000000000000⟩, false, none)
    Power := fun _ _ => (⟨0x4038000000000000⟩, none) }

/-- A power sensor whose operations all fail. -/
def brokenMeter : PowerSensor Unit Unit :=
  { Voltage := fun _ _ => (⟨0⟩, false, some ⟨"no reading"⟩)
    Current := fun _ _ => (⟨0⟩, false, some ⟨"no reading"⟩)
    Power := fun _ _ => (⟨0⟩, some ⟨"no reading"⟩) }

end powersensor

/-! ## Properties of the controller -/

section Proofs

variable {Sensor Call Extra Dyn T : Type}

theorem send_of_wait (p : Primary Sensor Call) (j : Nat)
    (hopen : p.pollPrimaryChanClosed = false) (hwait : p.workers[j]? = some WorkerPc.waitSignal) :
    p.send j = some (some { p with workers := p.workers.set j WorkerPc.polling }) := by
  simp [Primary.send, Primary.recvAt, hopen, hwait]

theorem send_of_closed (p : Primary Sensor Call) (j : Nat)
    (hclosed : p.pollPrimaryChanClosed = true) : p.send j = some none := by
  simp [Primary.send, hclosed]

theorem send_blocked (p : Primary Sensor Call) (j : Nat)
    (hopen : p.pollPrimaryChanClosed = false) (hno : p.workers[j]? ≠ some WorkerPc.waitSignal) :
    p.send j = none := by
  unfold Primary.send Primary.recvAt
  rw [hopen]
  split <;> simp_all

/-- The three outcomes of a send. -/
theorem send_cases (p : Primary Sensor Call) (j : Nat) :
    (p.send j = none ∧ p.pollPrimaryChanClosed = false ∧ p.workers[j]? ≠ some WorkerPc.waitSignal)
    ∨ (p.send j = some none ∧ p.pollPrimaryChanClosed = true)
    ∨ (p.send j = some (some { p with workers := p.workers.set j WorkerPc.polling })
        ∧ p.pollPrimaryChanClosed = false ∧ p.workers[j]? = some WorkerPc.waitSignal) := by
  by_cases hc : p.pollPrimaryChanClosed = true
  · right; left; exact ⟨send_of_closed p j hc, hc⟩
  · have hc' : p.pollPrimaryChanClosed = false := by simpa using hc
    by_cases hw : p.workers[j]? = some WorkerPc.waitSignal
    · right; right; exact ⟨send_of_wait p j hc' hw, hc', hw⟩
    · left; exact ⟨send_blocked p j hc' hw, hc', hw⟩

theorem run_finished (ty : GoType Dyn T) (env : Env Sensor Call Extra Dyn) (j n : Nat)
    (p : Primary Sensor Call) (t : Thread Call Extra T)
    (h : Thread.step ty env j p t = none) : Thread.run ty env j n p t = (p, t) := by
  cases n <;> simp [Thread.run, h]

theorem send_eq_some_some (p p' : Primary Sensor Call) (j : Nat) (h : p.send j = some (some p')) :
    p.pollPrimaryChanClosed = false ∧ p.workers[j]? = some WorkerPc.waitSignal ∧
      p' = { p with workers := p.workers.set j WorkerPc.polling } := by
  rcases send_cases p j with ⟨h1, _, _⟩ | ⟨h1, _⟩ | ⟨h1, h2, h3⟩
  · rw [h1] at h; simp at h
  · rw [h1] at h; simp at h
  · rw [h1] at h
    simp at h
    exact ⟨h2, h3, h.symm⟩

/-- What a step of a caller goroutine can do to the shared state. -/
theorem thread_step_frame (ty : GoType Dyn T) (env : Env Sensor Call Extra Dyn) (j : Nat)
    (p p' : Primary Sensor Call) (t t' : Thread Call Extra T)
    (h : Thread.step ty env j p t = some (p', t')) :
    (p'.usePrimary = true → p.usePrimary = true)
    ∧ p'.workers.length = p.workers.length
    ∧ (p.pollPrimaryChanClosed = true → p'.pollPrimaryChanClosed = true)
    ∧ (∀ k : Nat, p'.workers[k]? = some WorkerPc.probeSucceeded →
        p.workers[k]? = some WorkerPc.probeSucceeded)
    ∧ p'.primarySensor = p.primarySensor ∧ p'.timeout = p.timeout ∧ p'.calls = p.calls := by
  cases t <;> simp only [Thread.step] at h
  case usePrimary => simp at h; obtain ⟨rfl, -⟩ := h; simp
  case tarProbe =>
    split at h <;> (simp at h; obtain ⟨rfl, -⟩ := h; simp)
  case tarWarn err => simp at h; obtain ⟨rfl, -⟩ := h; simp
  case tarSet => simp at h; obtain ⟨rfl, -⟩ := h; simp [Primary.setUsePrimary]
  case tarSend =>
    split at h
    · simp at h
    · simp at h; obtain ⟨rfl, -⟩ := h; simp
    · rename_i q hs
      simp at h; obtain ⟨rfl, -⟩ := h
      obtain ⟨-, -, rfl⟩ := send_eq_some_some p q j hs
      simp
      intro k hk
      rw [List.getElem?_set] at hk
      split at hk
      · split at hk <;> simp at hk
      · exact hk
  case tpCall extra call =>
    split at h
    · split at h <;> (simp at h; obtain ⟨rfl, -⟩ := h; simp)
    · simp at h; obtain ⟨rfl, -⟩ := h; simp
  case tpWarn err => simp at h; obtain ⟨rfl, -⟩ := h; simp
  case tpSend err =>
    split at h
    · simp at h
    · simp at h; obtain ⟨rfl, -⟩ := h; simp
    · rename_i q hs
      simp at h; obtain ⟨rfl, -⟩ := h
      obtain ⟨-, -, rfl⟩ := send_eq_some_some p q j hs
      simp
      intro k hk
      rw [List.getElem?_set] at hk
      split at hk
      · split at hk <;> simp at hk
      · exact hk
  case tpSet err => simp at h; obtain ⟨rfl, -⟩ := h; simp [Primary.setUsePrimary]
  case closeChan =>
    split at h <;> (simp at h; obtain ⟨rfl, -⟩ := h; simp)
  case closeStop => simp at h; obtain ⟨rfl, -⟩ := h; simp
  case closeWait =>
    split at h
    · simp at h; obtain ⟨rfl, -⟩ := h; simp
    · simp at h
  all_goals simp at h

/-- What a step of a worker goroutine can do to the shared state. -/
theorem worker_step_frame (p p' : Primary Sensor Call) (j : Nat)
    (ev : WorkerEvent Sensor Call Extra Dyn) (h : p.workerStep j ev = some p') :
    p'.workers.length = p.workers.length
    ∧ p'.logger = p.logger
    ∧ p'.pollPrimaryChanClosed = p.pollPrimaryChanClosed
    ∧ p'.primarySensor = p.primarySensor ∧ p'.timeout = p.timeout ∧ p'.calls = p.calls
    ∧ (p'.usePrimary = true → p.usePrimary = true ∨
        (ev = WorkerEvent.setUsable ∧ p.workers[j]? = some WorkerPc.probeSucceeded))
    ∧ (∀ k : Nat, p'.workers[k]? = some WorkerPc.probeSucceeded →
        p.workers[k]? = some WorkerPc.probeSucceeded ∨
          (k = j ∧ ∃ env, ev = WorkerEvent.tick env ∧
            env.CallAllFunctions p.primarySensor p.timeout none p.calls = none)) := by
  unfold Primary.workerStep at h
  split at h
  · split at h
    · simp at h; subst h; simp
      intro k hk
      rw [List.getElem?_set] at hk
      split at hk
      · split at hk <;> simp at hk
      · exact hk
    · simp at h
  · split at h
    · simp at h; subst h; simp
      intro k hk
      rw [List.getElem?_set] at hk
      split at hk
      · split at hk <;> simp at hk
      · exact hk
    · simp at h
  · split at h
    · simp at h; subst h; simp
      intro k hk
      rw [List.getElem?_set] at hk
      split at hk
      · split at hk <;> simp at hk
      · exact hk
    · simp at h
  · rename_i env hw
    split at h
    · rename_i hc
      simp at h; subst h; simp
      intro k hk
      rw [List.getElem?_set] at hk
      split at hk
      · rename_i hjk
        right
        exact ⟨hjk.symm, hc⟩
      · left; exact hk
    · simp at h; subst h; simp
      intro k hk; left; exact hk
  · rename_i hw
    simp at h; subst h
    simp [Primary.setUsePrimary, hw]
    intro k hk
    rw [List.getElem?_set] at hk
    split at hk
    · split at hk <;> simp at hk
    · exact hk
  · simp at h

theorem run_usePrimary_false (ty : GoType Dyn T) (env : Env Sensor Call Extra Dyn) (j n : Nat)
    (p : Primary Sensor Call) (t : Thread Call Extra T) (hfalse : p.usePrimary = false) :
    (Thread.run ty env j n p t).1.usePrimary = false := by
  induction n generalizing p t with
  | zero => simpa [Thread.run] using hfalse
  | succ n ih =>
    simp only [Thread.run]
    cases hs : Thread.step ty env j p t with
    | none => simpa using hfalse
    | some q =>
      obtain ⟨p', t'⟩ := q
      have hf := (thread_step_frame ty env j p p' t t' hs).1
      apply ih
      cases hp : p'.usePrimary
      · rfl
      · rw [hf hp] at hfalse; cases hfalse

theorem sys_step_workers_length (ty : GoType Dyn T) (a : Action Sensor Call Extra Dyn)
    (σ σ' : Sys Sensor Call Extra T) (hstep : Sys.step ty a σ = some σ') :
    σ'.primary.workers.length = σ.primary.workers.length := by
  cases a with
  | call op => simp [Sys.step] at hstep; subst hstep; rfl
  | caller i j env =>
    simp only [Sys.step] at hstep
    split at hstep
    · simp at hstep
    · split at hstep
      · simp at hstep
      · rename_i hs
        simp at hstep; subst hstep
        exact (thread_step_frame ty env j _ _ _ _ hs).2.1
  | worker j ev =>
    simp only [Sys.step] at hstep
    split at hstep
    · simp at hstep
    · rename_i hs
      simp at hstep; subst hstep
      exact (worker_step_frame _ _ j ev hs).1

theorem sys_run_workers_length (ty : GoType Dyn T) (acts : List (Action Sensor Call Extra Dyn))
    (σ σ' : Sys Sensor Call Extra T) (hrun : Sys.run ty acts σ = some σ') :
    σ'.primary.workers.length = σ.primary.workers.length := by
  induction acts generalizing σ with
  | nil => simp [Sys.run] at hrun; subst hrun; rfl
  | cons a as ih =>
    simp only [Sys.run] at hrun
    split at hrun
    · simp at hrun
    · rename_i τ hs
      rw [ih τ hrun, sys_step_workers_length ty a σ τ hs]

theorem thread_step_closedChan (ty : GoType Dyn T) (env : Env Sensor Call Extra Dyn) (j : Nat)
    (p p' : Primary Sensor Call) (t t' : Thread Call Extra T)
    (h : Thread.step ty env j p t = some (p', t')) (hc : t'.closedChan = true) :
    t.closedChan = true ∨ p'.pollPrimaryChanClosed = true := by
  cases t <;> simp only [Thread.step] at h
  case closeChan =>
    split at h <;> (simp at h; obtain ⟨rfl, rfl⟩ := h)
    · simp [Thread.closedChan] at hc
    · right; rfl
  case closeStop => left; rfl
  case closeWait => left; rfl
  case tarProbe => split at h <;> (simp at h; obtain ⟨-, rfl⟩ := h; simp [Thread.closedChan] at hc)
  case tarSend =>
    split at h
    · simp at h
    · simp at h; obtain ⟨-, rfl⟩ := h; simp [Thread.closedChan] at hc
    · simp at h; obtain ⟨-, rfl⟩ := h; simp [Thread.closedChan] at hc
  case tpSend =>
    split at h
    · simp at h
    · simp at h; obtain ⟨-, rfl⟩ := h; simp [Thread.closedChan] at hc
    · simp at h; obtain ⟨-, rfl⟩ := h; simp [Thread.closedChan] at hc
  case tpCall =>
    split at h
    · split at h <;> (simp at h; obtain ⟨-, rfl⟩ := h; simp [Thread.closedChan] at hc)
    · simp at h; obtain ⟨-, rfl⟩ := h; simp [Thread.closedChan] at hc
  all_goals (simp at h; try (obtain ⟨-, rfl⟩ := h; simp [Thread.closedChan] at hc))


theorem sys_step_closeInv (ty : GoType Dyn T) (a : Action Sensor Call Extra Dyn)
    (σ σ' : Sys Sensor Call Extra T) (hstep : Sys.step ty a σ = some σ') (hinv : CloseInv σ) :
    CloseInv σ' := by
  intro t ht hc
  cases a with
  | call op =>
    simp [Sys.step] at hstep; subst hstep
    simp at ht ⊢
    rcases ht with ht | rfl
    · exact hinv t ht hc
    · cases op <;> simp [Op.entry, Thread.closedChan] at hc
  | caller i j env =>
    simp only [Sys.step] at hstep
    split at hstep
    · simp at hstep
    · rename_i t0 ht0
      split at hstep
      · simp at hstep
      · rename_i p' t' hs
        simp at hstep; subst hstep
        simp at ht ⊢
        have hmono := (thread_step_frame ty env j _ _ _ _ hs).2.2.1
        rcases List.mem_or_eq_of_mem_set ht with hmem | rfl
        · exact hmono (hinv t hmem hc)
        · rcases thread_step_closedChan ty env j _ _ _ _ hs hc with h0 | h0
          · exact hmono (hinv t0 (List.getElem?_mem ht0) h0)
          · exact h0
  | worker j ev =>
    simp only [Sys.step] at hstep
    split at hstep
    · simp at hstep
    · rename_i hs
      simp at hstep; subst hstep
      simp at ht ⊢
      rw [(worker_step_frame _ _ j ev hs).2.2.1]
      exact hinv t ht hc

theorem sys_run_closeInv (ty : GoType Dyn T) (acts : List (Action Sensor Call Extra Dyn))
    (σ σ' : Sys Sensor Call Extra T) (hrun : Sys.run ty acts σ = some σ') (hinv : CloseInv σ) :
    CloseInv σ' := by
  induction acts generalizing σ with
  | nil => simp [Sys.run] at hrun; subst hrun; exact hinv
  | cons a as ih =>
    simp only [Sys.run] at hrun
    split at hrun
    · simp at hrun
    · rename_i τ hs
      exact ih τ hrun (sys_step_closeInv ty a σ τ hs hinv)

/-- The three ways a failing `TryPrimary`, run on its own, can end. -/
theorem TryPrimary_failure_cases (ty : GoType Dyn T) (env : Env Sensor Call Extra Dyn) (j : Nat)
    (s : Primary Sensor Call) (extra : Option Extra) (call : Call) (readings : Dyn) (e : GoError)
    (hcall : env.TryReadingOrFail s.timeout s.primarySensor call extra = (readings, some e)) :
    (s.pollPrimaryChanClosed = true ∧
      TryPrimary ty env j s extra call =
        ({ s with logger := Warnf s.logger e }, Thread.panicked "send on closed channel"))
    ∨ (s.pollPrimaryChanClosed = false ∧ s.workers[j]? ≠ some WorkerPc.waitSignal ∧
      TryPrimary ty env j s extra call = ({ s with logger := Warnf s.logger e }, Thread.tpSend e))
    ∨ (s.pollPrimaryChanClosed = false ∧ s.workers[j]? = some WorkerPc.waitSignal ∧
      TryPrimary ty env j s extra call =
        ({ s with logger := Warnf s.logger e
                  workers := s.workers.set j WorkerPc.polling
                  usePrimary := false },
          Thread.tpRet ty.zero (some e))) := by
  rcases send_cases ({ s with logger := Warnf s.logger e } : Primary Sensor Call) j with
    ⟨h1, h2, h3⟩ | ⟨h1, h2⟩ | ⟨h1, h2, h3⟩
  · right; left
    refine ⟨h2, h3, ?_⟩
    simp [TryPrimary, Thread.run, Thread.step, hcall, h1]
  · left
    refine ⟨h2, ?_⟩
    simp [TryPrimary, Thread.run, Thread.step, hcall, h1]
  · right; right
    refine ⟨h2, h3, ?_⟩
    simp [TryPrimary, Thread.run, Thread.step, hcall, h1, Primary.setUsePrimary]

/-- The three ways a `TryAllReadings` whose probe fails, run on its own, can end. -/
theorem TryAllReadings_failure_cases (env : Env Sensor Call Extra Dyn) (j : Nat)
    (p : Primary Sensor Call) (e : GoError)
    (hprobe : env.CallAllFunctions p.primarySensor p.timeout none p.calls = some e) :
    (p.pollPrimaryChanClosed = true ∧
      p.TryAllReadings env j =
        ({ p with logger := Warnf p.logger e, usePrimary := false },
          Thread.panicked "send on closed channel"))
    ∨ (p.pollPrimaryChanClosed = false ∧ p.workers[j]? ≠ some WorkerPc.waitSignal ∧
      p.TryAllReadings env j =
        ({ p with logger := Warnf p.logger e, usePrimary := false }, Thread.tarSend))
    ∨ (p.pollPrimaryChanClosed = false ∧ p.workers[j]? = some WorkerPc.waitSignal ∧
      p.TryAllReadings env j =
        ({ p with logger := Warnf p.logger e
                  workers := p.workers.set j WorkerPc.polling
                  usePrimary := false },
          Thread.tarRet)) := by
  rcases send_cases
      ({ p with logger := Warnf p.logger e, usePrimary := false } : Primary Sensor Call) j with
    ⟨h1, h2, h3⟩ | ⟨h1, h2⟩ | ⟨h1, h2, h3⟩
  · right; left
    refine ⟨h2, h3, ?_⟩
    simp [Primary.TryAllReadings, Thread.run, Thread.step, hprobe, h1, Primary.setUsePrimary]
  · left
    refine ⟨h2, ?_⟩
    simp [Primary.TryAllReadings, Thread.run, Thread.step, hprobe, h1, Primary.setUsePrimary]
  · right; right
    refine ⟨h2, h3, ?_⟩
    simp [Primary.TryAllReadings, Thread.run, Thread.step, hprobe, h1, Primary.setUsePrimary]

/-- A failing `TryPrimary` that finds the channel open and no worker at the outer
`select` never returns, however long it runs on its own. -/
theorem TryPrimary_blocked_run (ty : GoType Dyn T) (env : Env Sensor Call Extra Dyn) (j : Nat)
    (s : Primary Sensor Call) (extra : Option Extra) (call : Call) (readings : Dyn) (e : GoError)
    (hcall : env.TryReadingOrFail s.timeout s.primarySensor call extra = (readings, some e))
    (hopen : s.pollPrimaryChanClosed = false)
    (hno : s.workers[j]? ≠ some WorkerPc.waitSignal) (n : Nat) :
    Thread.run ty env j (n + 2) s (Thread.tpCall extra call) =
      ({ s with logger := Warnf s.logger e }, Thread.tpSend e) := by
  have hs : ({ s with logger := Warnf s.logger e } : Primary Sensor Call).send j = none :=
    send_blocked _ j hopen hno
  have hstep : Thread.step ty env j ({ s with logger := Warnf s.logger e } : Primary Sensor Call)
      (Thread.tpSend e) = none := by
    simp [Thread.step, hs]
  simp [Thread.run, Thread.step, hcall]
  exact run_finished ty env j n _ _ hstep

/-- The controller `CreatePrimary` returns, by the result of its probe. -/
theorem CreatePrimary_value (env : Env Sensor Call Extra Dyn) (timeout : Int)
    (logger : List LogEntry) (primarySensor : Sensor) (calls : List Call) :
    CreatePrimary env timeout logger primarySensor calls =
      some (match env.CallAllFunctions primarySensor timeout none calls with
        | none =>
            { workers := [WorkerPc.waitSignal], workersCtxDone := false, logger := logger,
              primarySensor := primarySensor, pollPrimaryChanClosed := false,
              timeout := timeout, usePrimary := true, calls := calls }
        | some e =>
            { workers := [WorkerPc.polling], workersCtxDone := false,
              logger := Warnf logger e, primarySensor := primarySensor,
              pollPrimaryChanClosed := false, timeout := timeout, usePrimary := false,
              calls := calls }) := by
  cases h : env.CallAllFunctions primarySensor timeout none calls with
  | none =>
    simp [CreatePrimary, Primary.PollPrimaryForHealth, Primary.TryAllReadings, Thread.run,
      Thread.step, h]
  | some e =>
    simp [CreatePrimary, Primary.PollPrimaryForHealth, Primary.TryAllReadings, Thread.run,
      Thread.step, h, Primary.setUsePrimary, Primary.send, Primary.recvAt]

/-- C4: the state `CreatePrimary` produces is decided by one probe over all the calls.
It always returns; if the probe returns no error the flag is true, nothing was logged
and the only worker still waits for a signal; if the probe returns an error the flag
is false, one warning was logged and the only worker has received the signal and is in
its polling sub-loop. -/
theorem CreatePrimary_decided_by_probe (env : Env Sensor Call Extra Dyn) (timeout : Int)
    (logger : List LogEntry) (primarySensor : Sensor) (calls : List Call) :
    ∃ p, CreatePrimary env timeout logger primarySensor calls = some p
      ∧ p.timeout = timeout ∧ p.primarySensor = primarySensor ∧ p.calls = calls
      ∧ p.pollPrimaryChanClosed = false ∧ p.workersCtxDone = false
      ∧ (match env.CallAllFunctions primarySensor timeout none calls with
          | none =>
              p.UsePrimary = true ∧ p.workers = [WorkerPc.waitSignal] ∧ p.logger = logger
          | some e =>
              p.UsePrimary = false ∧ p.workers = [WorkerPc.polling]
                ∧ p.logger = Warnf logger e) := by
  refine ⟨_, CreatePrimary_value env timeout logger primarySensor calls, ?_⟩
  cases h : env.CallAllFunctions primarySensor timeout none calls <;>
    simp [Primary.UsePrimary]

/-- C4, on a failing and on a healthy primary. -/
theorem CreatePrimary_decided_by_probe_witness :
    (∃ p, CreatePrimary Sample.failing 50 [] () [1, 2, 3] = some p
      ∧ p.timeout = 50 ∧ p.primarySensor = () ∧ p.calls = [1, 2, 3]
      ∧ p.pollPrimaryChanClosed = false ∧ p.workersCtxDone = false
      ∧ (match Sample.failing.CallAllFunctions () 50 none [1, 2, 3] with
          | none => p.UsePrimary = true ∧ p.workers = [WorkerPc.waitSignal] ∧ p.logger = []
          | some e =>
              p.UsePrimary = false ∧ p.workers = [WorkerPc.polling] ∧ p.logger = Warnf [] e)) :=
  CreatePrimary_decided_by_probe Sample.failing 50 [] () [1, 2, 3]

/-- C10: a `TryPrimary` whose timed invocation succeeds with a reading of dynamic type
`T` returns that reading and a nil error and leaves the controller exactly as it was:
same flag, same worker states (no signal sent), same log. -/
theorem TryPrimary_success (ty : GoType Dyn T) (env : Env Sensor Call Extra Dyn) (j : Nat)
    (s : Primary Sensor Call) (extra : Option Extra) (call : Call) (readings : Dyn) (r : T)
    (hcall : env.TryReadingOrFail s.timeout s.primarySensor call extra = (readings, none))
    (hty : ty.assert readings = some r) :
    TryPrimary ty env j s extra call = (s, Thread.tpRet r none) := by
  simp [TryPrimary, Thread.run, Thread.step, hcall, hty]

/-- C10 on a controller whose flag is false: the reading 7 comes back and the flag
stays false. -/
theorem TryPrimary_success_witness :
    TryPrimary Sample.natType Sample.healthy 0 Sample.failedStart none 7 =
      (Sample.failedStart, Thread.tpRet 7 none) :=
  TryPrimary_success Sample.natType Sample.healthy 0 Sample.failedStart none 7 7 7 rfl rfl

/-- C1 (amended): when the timed invocation returns the error `e`, and the channel is
open and worker `j` stands at its outer wait, `TryPrimary` returns the zero value of
`T` with exactly `e`, having logged, handed over the signal and cleared the flag; and
in no state does it return anything else, or return at all without such a worker. -/
theorem TryPrimary_error_returned (ty : GoType Dyn T) (env : Env Sensor Call Extra Dyn) (j : Nat)
    (s : Primary Sensor Call) (extra : Option Extra) (call : Call) (readings : Dyn) (e : GoError)
    (hcall : env.TryReadingOrFail s.timeout s.primarySensor call extra = (readings, some e)) :
    (s.pollPrimaryChanClosed = false → s.workers[j]? = some WorkerPc.waitSignal →
      TryPrimary ty env j s extra call =
        ({ s with logger := Warnf s.logger e
                  workers := s.workers.set j WorkerPc.polling
                  usePrimary := false },
          Thread.tpRet ty.zero (some e))
      ∧ (TryPrimary ty env j s extra call).1.UsePrimary = false)
    ∧ (∀ r err, (TryPrimary ty env j s extra call).2 = Thread.tpRet r err →
        r = ty.zero ∧ err = some e ∧ (TryPrimary ty env j s extra call).1.UsePrimary = false
          ∧ s.pollPrimaryChanClosed = false ∧ s.workers[j]? = some WorkerPc.waitSignal) := by
  rcases TryPrimary_failure_cases ty env j s extra call readings e hcall with
    ⟨h1, h2⟩ | ⟨h1, h2, h3⟩ | ⟨h1, h2, h3⟩
  · refine ⟨fun ho => ?_, fun r err hr => ?_⟩
    · rw [h1] at ho; cases ho
    · rw [h2] at hr; simp at hr
  · refine ⟨fun _ hw => absurd hw h2, fun r err hr => ?_⟩
    rw [h3] at hr; simp at hr
  · refine ⟨fun _ _ => ⟨h3, by rw [h3]; rfl⟩, fun r err hr => ?_⟩
    rw [h3] at hr ⊢
    simp at hr
    obtain ⟨rfl, rfl⟩ := hr
    exact ⟨rfl, rfl, rfl, h1, h2⟩

/-- C1 (amended) on the controller built over a healthy primary that then fails a call. -/
theorem TryPrimary_error_returned_witness :
    TryPrimary Sample.natType Sample.failing 0 Sample.started none 7 =
        (Sample.failedStart, Thread.tpRet 0 (some Sample.boom))
      ∧ (TryPrimary Sample.natType Sample.failing 0 Sample.started none 7).1.UsePrimary = false :=
  (TryPrimary_error_returned Sample.natType Sample.failing 0 Sample.started none 7 0 Sample.boom
    rfl).1 rfl rfl

/-- C1 as stated fails: the controller `inFlight` is reached from a fresh controller
(another caller has sent its signal), and there a `TryPrimary` whose call fails never
returns, however long it runs and whichever worker it offers the signal to; on the
controller left by `Close` it panics instead of returning. -/
theorem TryPrimary_failure_may_not_return :
    Sys.run Sample.natType
        [Action.call (Op.TryPrimary none 7), Action.caller 0 0 Sample.failing,
          Action.caller 0 0 Sample.failing, Action.caller 0 0 Sample.failing]
        ⟨Sample.started, []⟩
      = some ⟨Sample.inFlight, [Thread.tpSet Sample.boom]⟩
    ∧ (Sample.failing.TryReadingOrFail Sample.inFlight.timeout Sample.inFlight.primarySensor
        7 none).2 = some Sample.boom
    ∧ (∀ (j n : Nat) (r : Nat) (err : Option GoError),
        (Thread.run Sample.natType Sample.failing j n Sample.inFlight
          (Thread.tpCall none 7)).2 ≠ Thread.tpRet r err)
    ∧ (TryPrimary Sample.natType Sample.failing 0 Sample.closed none 7).2 =
        Thread.panicked "send on closed channel" := by
  refine ⟨rfl, rfl, ?_, rfl⟩
  intro j n r err
  have hno : Sample.inFlight.workers[j]? ≠ some WorkerPc.waitSignal := by
    cases j with
    | zero => simp [Sample.inFlight, Sample.started]
    | succ k => simp [Sample.inFlight, Sample.started]
  match n with
  | 0 => simp [Thread.run]
  | 1 => simp [Thread.run, Thread.step, Sample.failing]
  | n + 2 =>
    rw [TryPrimary_blocked_run Sample.natType Sample.failing j Sample.inFlight none 7 0
      Sample.boom rfl rfl hno n]
    simp

/-- No worker inside the polling sub-loop stands at the outer `select`. -/
theorem no_waiter_of_polling (p : Primary Sensor Call)
    (hpoll : ∀ w ∈ p.workers, w.inPolling = true) (k : Nat) :
    p.workers[k]? ≠ some WorkerPc.waitSignal := by
  intro hk
  have := hpoll _ (List.getElem?_mem hk)
  simp [WorkerPc.inPolling] at this

/-- C2 (amended): in every state where the channel is open and every worker is inside
its polling sub-loop, a failing `TryPrimary` logs its warning and then waits at the
send: it has no step of its own, whichever worker it offers the signal to and however
long it runs.  Once worker `j` has completed a successful probe, set the flag and
returned to its outer wait, the send is received, the worker re-enters the polling
sub-loop, and `TryPrimary` clears the flag and returns its error. -/
theorem TryPrimary_waits_for_worker (ty : GoType Dyn T) (env : Env Sensor Call Extra Dyn)
    (j : Nat) (s : Primary Sensor Call) (extra : Option Extra) (call : Call) (readings : Dyn)
    (e : GoError)
    (hcall : env.TryReadingOrFail s.timeout s.primarySensor call extra = (readings, some e))
    (hopen : s.pollPrimaryChanClosed = false)
    (hpoll : ∀ w ∈ s.workers, w.inPolling = true) :
    (∀ k, TryPrimary ty env k s extra call =
        ({ s with logger := Warnf s.logger e }, Thread.tpSend e))
    ∧ (∀ k n, Thread.run ty env k n { s with logger := Warnf s.logger e } (Thread.tpSend e) =
        ({ s with logger := Warnf s.logger e }, Thread.tpSend e))
    ∧ (∀ env' : Env Sensor Call Extra Dyn, s.workers[j]? = some WorkerPc.polling →
        env'.CallAllFunctions s.primarySensor s.timeout none s.calls = none →
        ∃ s2 s3,
          Primary.workerStep { s with logger := Warnf s.logger e } j (WorkerEvent.tick env')
              = some s2
          ∧ s2.workerStep j (WorkerEvent.setUsable : WorkerEvent Sensor Call Extra Dyn) = some s3
          ∧ s3.UsePrimary = true ∧ s3.workers[j]? = some WorkerPc.waitSignal
          ∧ Thread.run ty env j 2 s3 (Thread.tpSend e) =
              ({ s3 with workers := s3.workers.set j WorkerPc.polling, usePrimary := false },
                Thread.tpRet ty.zero (some e))) := by
  have hno := no_waiter_of_polling s hpoll
  refine ⟨fun k => ?_, fun k n => ?_, fun env' hj hprobe => ?_⟩
  · exact TryPrimary_blocked_run ty env k s extra call readings e hcall hopen (hno k) 2
  · apply run_finished
    have hs : ({ s with logger := Warnf s.logger e } : Primary Sensor Call).send k = none :=
      send_blocked _ k hopen (hno k)
    simp [Thread.step, hs]
  · have hlt : j < s.workers.length := by
      rcases List.getElem?_eq_some.mp hj with ⟨h, -⟩
      exact h
    refine ⟨{ s with logger := Warnf s.logger e
                     workers := s.workers.set j WorkerPc.probeSucceeded },
      { s with logger := Warnf s.logger e
               workers := (s.workers.set j WorkerPc.probeSucceeded).set j WorkerPc.waitSignal
               usePrimary := true }, ?_, ?_, ?_, ?_, ?_⟩
    · simp [Primary.workerStep, hj, hprobe]
    · simp [Primary.workerStep, hlt, Primary.setUsePrimary]
    · rfl
    · simp [hlt]
    · simp [Thread.run, Thread.step, Primary.send, Primary.recvAt, hopen, hlt,
        Primary.setUsePrimary]

/-- C2 (amended) on the controller built over a failing primary. -/
theorem TryPrimary_waits_for_worker_witness :
    (∀ k, TryPrimary Sample.natType Sample.failing k Sample.failedStart none 7 =
        ({ Sample.failedStart with logger := Warnf Sample.failedStart.logger Sample.boom },
          Thread.tpSend Sample.boom))
    ∧ (∀ k n, Thread.run Sample.natType Sample.failing k n
          { Sample.failedStart with logger := Warnf Sample.failedStart.logger Sample.boom }
          (Thread.tpSend Sample.boom) =
        ({ Sample.failedStart with logger := Warnf Sample.failedStart.logger Sample.boom },
          Thread.tpSend Sample.boom))
    ∧ (∃ s2 s3,
          Primary.workerStep
              { Sample.failedStart with logger := Warnf Sample.failedStart.logger Sample.boom }
              0 (WorkerEvent.tick Sample.healthy) = some s2
          ∧ s2.workerStep 0 (WorkerEvent.setUsable : WorkerEvent Unit Nat Unit Nat) = some s3
          ∧ s3.UsePrimary = true ∧ s3.workers[0]? = some WorkerPc.waitSignal
          ∧ Thread.run Sample.natType Sample.failing 0 2 s3 (Thread.tpSend Sample.boom) =
              ({ s3 with workers := s3.workers.set 0 WorkerPc.polling, usePrimary := false },
                Thread.tpRet Sample.natType.zero (some Sample.boom))) :=
  have h := TryPrimary_waits_for_worker Sample.natType Sample.failing 0 Sample.failedStart
    none 7 0 Sample.boom rfl rfl (by decide)
  ⟨h.1, h.2.1, h.2.2 Sample.healthy rfl rfl⟩

/-- C2 as stated fails: on the controller `CreatePrimary` builds over a failing primary
(flag false, worker in its polling sub-loop) a further failing `TryPrimary` stops at
the send of line 92 and never returns without a step of the worker. -/
theorem TryPrimary_stalls_while_worker_polls :
    CreatePrimary Sample.failing 50 [] () [1, 2, 3] = some Sample.failedStart
    ∧ (∀ w ∈ Sample.failedStart.workers, w.inPolling = true)
    ∧ (Sample.failing.TryReadingOrFail Sample.failedStart.timeout
        Sample.failedStart.primarySensor 7 none).2 = some Sample.boom
    ∧ (∀ j n : Nat, (Thread.run Sample.natType Sample.failing j (n + 2) Sample.failedStart
          (Thread.tpCall none 7)).2 = Thread.tpSend Sample.boom)
    ∧ (∀ j : Nat, Thread.step Sample.natType Sample.failing j
          { Sample.failedStart with logger := Warnf Sample.failedStart.logger Sample.boom }
          (Thread.tpSend Sample.boom) = none) := by
  have hno : ∀ j : Nat, Sample.failedStart.workers[j]? ≠ some WorkerPc.waitSignal := by
    intro j
    cases j <;> simp [Sample.failedStart, Sample.started]
  refine ⟨rfl, by decide, rfl, fun j n => ?_, fun j => ?_⟩
  · rw [TryPrimary_blocked_run Sample.natType Sample.failing j Sample.failedStart none 7 0
      Sample.boom rfl rfl (hno j) n]
  · have hs : ({ Sample.failedStart with
          logger := Warnf Sample.failedStart.logger Sample.boom } : Primary Unit Nat).send j
        = none := send_blocked _ j rfl (hno j)
    simp [Thread.step, hs]

/-- C3: from a state whose flag is false, a step of the system makes the flag true only
if it is a worker executing line 121 after its probe succeeded, and a worker gets there
only by a tick whose probe over the configured calls returned nil; starting an
operation, any step of a caller (in `TryPrimary`, `TryAllReadings`, `UsePrimary` or
`Close`), and any whole run of a caller operation leave the flag false, and a tick
whose probe returns an error changes nothing. -/
theorem usePrimary_rises_only_after_probe (ty : GoType Dyn T)
    (a : Action Sensor Call Extra Dyn) (σ σ' : Sys Sensor Call Extra T)
    (hstep : Sys.step ty a σ = some σ') (hfalse : σ.primary.usePrimary = false) :
    (σ'.primary.usePrimary = true →
      ∃ j, a = Action.worker j WorkerEvent.setUsable ∧
        σ.primary.workers[j]? = some WorkerPc.probeSucceeded)
    ∧ (∀ j : Nat, σ'.primary.workers[j]? = some WorkerPc.probeSucceeded →
        σ.primary.workers[j]? = some WorkerPc.probeSucceeded ∨
          ∃ env, a = Action.worker j (WorkerEvent.tick env) ∧
            env.CallAllFunctions σ.primary.primarySensor σ.primary.timeout none
              σ.primary.calls = none)
    ∧ (∀ op, a = Action.call op → σ'.primary.usePrimary = false)
    ∧ (∀ i j env, a = Action.caller i j env → σ'.primary.usePrimary = false)
    ∧ (∀ j env e, a = Action.worker j (WorkerEvent.tick env) →
        env.CallAllFunctions σ.primary.primarySensor σ.primary.timeout none
          σ.primary.calls = some e → σ'.primary = σ.primary)
    ∧ (∀ (env : Env Sensor Call Extra Dyn) (j n : Nat) (t : Thread Call Extra T),
        (Thread.run ty env j n σ.primary t).1.usePrimary = false) := by
  have hno : ∀ q : Primary Sensor Call, (q.usePrimary = true → σ.primary.usePrimary = true) →
      q.usePrimary = false := by
    intro q hq
    cases hp : q.usePrimary
    · rfl
    · rw [hq hp] at hfalse; cases hfalse
  refine ⟨?_, ?_, ?_, ?_, ?_, fun env j n t => run_usePrimary_false ty env j n _ t hfalse⟩
  · intro htrue
    cases a with
    | call op =>
      simp [Sys.step] at hstep; subst hstep
      simp at htrue; rw [htrue] at hfalse; cases hfalse
    | caller i j env =>
      simp only [Sys.step] at hstep
      split at hstep
      · simp at hstep
      · split at hstep
        · simp at hstep
        · rename_i hs
          simp at hstep; subst hstep
          have := (thread_step_frame ty env j _ _ _ _ hs).1 htrue
          rw [this] at hfalse; cases hfalse
    | worker j ev =>
      simp only [Sys.step] at hstep
      split at hstep
      · simp at hstep
      · rename_i p' hs
        simp at hstep; subst hstep
        rcases (worker_step_frame _ p' j ev hs).2.2.2.2.2.2.1 htrue with h | ⟨h1, h2⟩
        · rw [h] at hfalse; cases hfalse
        · exact ⟨j, by rw [h1], h2⟩
  · intro k hk
    cases a with
    | call op =>
      simp [Sys.step] at hstep; subst hstep
      left; exact hk
    | caller i j env =>
      simp only [Sys.step] at hstep
      split at hstep
      · simp at hstep
      · split at hstep
        · simp at hstep
        · rename_i hs
          simp at hstep; subst hstep
          left
          exact (thread_step_frame ty env j _ _ _ _ hs).2.2.2.1 k hk
    | worker j ev =>
      simp only [Sys.step] at hstep
      split at hstep
      · simp at hstep
      · rename_i p' hs
        simp at hstep; subst hstep
        rcases (worker_step_frame _ p' j ev hs).2.2.2.2.2.2.2 k hk with h | ⟨rfl, env, h1, h2⟩
        · left; exact h
        · right; exact ⟨env, by rw [h1], h2⟩
  · intro op ha
    subst ha
    simp [Sys.step] at hstep; subst hstep
    exact hfalse
  · intro i j env ha
    subst ha
    simp only [Sys.step] at hstep
    split at hstep
    · simp at hstep
    · split at hstep
      · simp at hstep
      · rename_i hs
        simp at hstep; subst hstep
        exact hno _ (thread_step_frame ty env j _ _ _ _ hs).1
  · intro j env e ha hc
    subst ha
    simp only [Sys.step] at hstep
    split at hstep
    · simp at hstep
    · rename_i p' hs
      simp at hstep; subst hstep
      unfold Primary.workerStep at hs
      split at hs <;> simp_all

/-- C3 at a worker that has just seen its probe succeed: the step that raises the flag
is the worker's line 121. -/
theorem usePrimary_rises_only_after_probe_witness :
    ∃ j, (Action.worker 0 WorkerEvent.setUsable : Action Unit Nat Unit Nat) =
        Action.worker j WorkerEvent.setUsable ∧
      ({ Sample.failedStart with workers := [WorkerPc.probeSucceeded] } :
        Primary Unit Nat).workers[j]? = some WorkerPc.probeSucceeded :=
  (usePrimary_rises_only_after_probe Sample.natType
    (Action.worker 0 WorkerEvent.setUsable)
    ⟨{ Sample.failedStart with workers := [WorkerPc.probeSucceeded] }, []⟩
    ⟨{ Sample.failedStart with usePrimary := true, workers := [WorkerPc.waitSignal] }, []⟩
    rfl rfl).1 rfl

/-- C5 (amended): on every controller on which a caller's `Close` has returned, a
`TryPrimary` whose call fails logs its warning and panics at the send of line 92, and
a `TryAllReadings` whose probe fails logs its warning, clears the flag and panics at
the send of line 71: neither returns.  A `TryPrimary` whose call succeeds and a
`TryAllReadings` whose probe succeeds still return. -/
theorem failure_after_Close_panics (ty : GoType Dyn T) (p0 : Primary Sensor Call)
    (acts : List (Action Sensor Call Extra Dyn)) (σ : Sys Sensor Call Extra T)
    (hrun : Sys.run ty acts ⟨p0, []⟩ = some σ) (hclose : Thread.closeRet ∈ σ.callers)
    (env : Env Sensor Call Extra Dyn) (j : Nat) (extra : Option Extra) (call : Call) :
    (∀ readings e,
        env.TryReadingOrFail σ.primary.timeout σ.primary.primarySensor call extra
          = (readings, some e) →
        TryPrimary ty env j σ.primary extra call =
          ({ σ.primary with logger := Warnf σ.primary.logger e },
            Thread.panicked "send on closed channel"))
    ∧ (∀ e,
        env.CallAllFunctions σ.primary.primarySensor σ.primary.timeout none σ.primary.calls
          = some e →
        σ.primary.TryAllReadings env j =
          ({ σ.primary with logger := Warnf σ.primary.logger e, usePrimary := false },
            Thread.panicked "send on closed channel"))
    ∧ (∀ readings r,
        env.TryReadingOrFail σ.primary.timeout σ.primary.primarySensor call extra
          = (readings, none) →
        ty.assert readings = some r →
        TryPrimary ty env j σ.primary extra call = (σ.primary, Thread.tpRet r none))
    ∧ (env.CallAllFunctions σ.primary.primarySensor σ.primary.timeout none σ.primary.calls
          = none →
        σ.primary.TryAllReadings env j = (σ.primary, Thread.tarRet)) := by
  have hinv : CloseInv σ := by
    apply sys_run_closeInv ty acts _ σ hrun
    intro t ht
    simp at ht
  have hclosed : σ.primary.pollPrimaryChanClosed = true := hinv _ hclose rfl
  refine ⟨fun readings e hcall => ?_, fun e hprobe => ?_, fun readings r hcall hty => ?_,
    fun hprobe => ?_⟩
  · rcases TryPrimary_failure_cases ty env j σ.primary extra call readings e hcall with
      ⟨-, h⟩ | ⟨h, -⟩ | ⟨h, -⟩
    · exact h
    · rw [hclosed] at h; cases h
    · rw [hclosed] at h; cases h
  · rcases TryAllReadings_failure_cases env j σ.primary e hprobe with
      ⟨-, h⟩ | ⟨h, -⟩ | ⟨h, -⟩
    · exact h
    · rw [hclosed] at h; cases h
    · rw [hclosed] at h; cases h
  · simp [TryPrimary, Thread.run, Thread.step, hcall, hty]
  · simp [Primary.TryAllReadings, Thread.run, Thread.step, hprobe]

/-- C5 (amended) after the interleaving `closeTrace` on a fresh controller. -/
theorem failure_after_Close_panics_witness :
    Sys.run Sample.natType Sample.closeTrace ⟨Sample.started, []⟩
        = some ⟨Sample.closed, [Thread.closeRet]⟩
    ∧ TryPrimary Sample.natType Sample.failing 0 Sample.closed none 7 =
        ({ Sample.closed with logger := Warnf Sample.closed.logger Sample.boom },
          Thread.panicked "send on closed channel") :=
  ⟨rfl, (failure_after_Close_panics Sample.natType Sample.started Sample.closeTrace
      ⟨Sample.closed, [Thread.closeRet]⟩ rfl (by simp) Sample.failing 0 none 7).1 0
      Sample.boom rfl⟩

/-- C5 as stated fails: run `Close` to its return on a fresh controller; a `TryPrimary`
whose call fails, and a `TryAllReadings` whose probe fails, then end in a panic at
their send instead of returning. -/
theorem send_after_Close_panics :
    CreatePrimary Sample.healthy 50 [] () [1, 2, 3] = some Sample.started
    ∧ Sys.run Sample.natType Sample.closeTrace ⟨Sample.started, []⟩
        = some ⟨Sample.closed, [Thread.closeRet]⟩
    ∧ (∀ j, (TryPrimary Sample.natType Sample.failing j Sample.closed none 7).2 =
        Thread.panicked "send on closed channel")
    ∧ (∀ j, (Sample.closed.TryAllReadings Sample.failing j).2 =
        (Thread.panicked "send on closed channel" : Thread Nat Unit Unit)) := by
  refine ⟨rfl, rfl, fun j => ?_, fun j => ?_⟩
  · rcases TryPrimary_failure_cases Sample.natType Sample.failing j Sample.closed none 7 0
      Sample.boom rfl with ⟨-, h⟩ | ⟨h, -⟩ | ⟨h, -⟩
    · rw [h]
    · cases h
    · cases h
  · rcases TryAllReadings_failure_cases Sample.failing j Sample.closed Sample.boom rfl with
      ⟨-, h⟩ | ⟨h, -⟩ | ⟨h, -⟩
    · rw [h]
    · cases h
    · cases h

/-- C6 fails on the code: on a fresh, usable controller one failing `TryPrimary`
interleaved as in `raceTrace` (signal sent at line 92, worker probes a recovered
primary and sets the flag, then line 93 clears it) ends with no caller operation in
progress, the flag false and the only worker back at its outer wait, where no event
can move it: nothing will set the flag again until another failure is signalled. -/
theorem TryPrimary_race_strands_flag :
    CreatePrimary Sample.healthy 50 [] () [1, 2, 3] = some Sample.started
    ∧ Sys.run Sample.natType Sample.raceTrace ⟨Sample.started, []⟩
        = some ⟨Sample.stranded, [Thread.tpRet 0 (some Sample.boom)]⟩
    ∧ ([Thread.tpRet 0 (some Sample.boom)] : List (Thread Nat Unit Nat)).all
        Thread.finished = true
    ∧ Sample.stranded.UsePrimary = false
    ∧ Sample.stranded.workers = [WorkerPc.waitSignal]
    ∧ Sample.stranded.workers.all WorkerPc.inPolling = false
    ∧ (∀ (j : Nat) (ev : WorkerEvent Unit Nat Unit Nat),
        Sample.stranded.workerStep j ev = none) := by
  refine ⟨rfl, rfl, rfl, rfl, rfl, rfl, fun j ev => ?_⟩
  cases j <;> cases ev <;> simp [Primary.workerStep, Sample.stranded, Sample.started]

/-- C7 (amended): a `TryPrimary` whose call fails with `e`, and a `TryAllReadings`
whose probe fails with `e`, leave the log extended by exactly one warning whose text is
"primary sensor failed: " followed by the text of `e`, whether they return, block or
panic; no step of the recovery worker, a failed probe included, changes the log. -/
theorem warnings_logged (ty : GoType Dyn T) (env : Env Sensor Call Extra Dyn) (j : Nat)
    (s : Primary Sensor Call) (extra : Option Extra) (call : Call) :
    (∀ readings e,
        env.TryReadingOrFail s.timeout s.primarySensor call extra = (readings, some e) →
        (TryPrimary ty env j s extra call).1.logger =
          s.logger ++ [⟨Level.warn, "primary sensor failed: " ++ e.Error⟩])
    ∧ (∀ e, env.CallAllFunctions s.primarySensor s.timeout none s.calls = some e →
        (s.TryAllReadings env j).1.logger =
          s.logger ++ [⟨Level.warn, "primary sensor failed: " ++ e.Error⟩])
    ∧ (∀ (k : Nat) (ev : WorkerEvent Sensor Call Extra Dyn) (s' : Primary Sensor Call),
        s.workerStep k ev = some s' → s'.logger = s.logger) := by
  refine ⟨fun readings e hcall => ?_, fun e hprobe => ?_, fun k ev s' h => ?_⟩
  · rcases TryPrimary_failure_cases ty env j s extra call readings e hcall with
      ⟨-, h⟩ | ⟨-, -, h⟩ | ⟨-, -, h⟩ <;> rw [h] <;> rfl
  · rcases TryAllReadings_failure_cases env j s e hprobe with
      ⟨-, h⟩ | ⟨-, -, h⟩ | ⟨-, -, h⟩ <;> rw [h] <;> rfl
  · exact (worker_step_frame s s' k ev h).2.1

/-- C7 (amended) on a fresh controller whose primary fails a call. -/
theorem warnings_logged_witness :
    (TryPrimary Sample.natType Sample.failing 0 Sample.started none 7).1.logger =
      [⟨Level.warn, "primary sensor failed: boom"⟩] :=
  (warnings_logged Sample.natType Sample.failing 0 Sample.started none 7).1 0 Sample.boom rfl

/-- C7 as stated fails: the worker of the controller built over a failing primary
ticks, its probe fails with an error, and the log is what it was: no warning is
appended for that failed probe pass. -/
theorem worker_failed_probe_logs_nothing :
    Sample.failing.CallAllFunctions Sample.failedStart.primarySensor
        Sample.failedStart.timeout none Sample.failedStart.calls = some Sample.boom
    ∧ Sample.failedStart.workerStep 0 (WorkerEvent.tick Sample.failing)
        = some Sample.failedStart
    ∧ Sample.failedStart.logger = [⟨Level.warn, "primary sensor failed: boom"⟩] :=
  ⟨rfl, rfl, rfl⟩

/-- C8: `CreatePrimary` returns a controller with exactly one registered worker, and
after every interleaving of caller operations (each started any number of times,
failing or not) and worker steps the number of registered workers is still one. -/
theorem one_worker (ty : GoType Dyn T) (env : Env Sensor Call Extra Dyn) (timeout : Int)
    (logger : List LogEntry) (primarySensor : Sensor) (calls : List Call) :
    ∃ p0, CreatePrimary env timeout logger primarySensor calls = some p0
      ∧ p0.workers.length = 1
      ∧ ∀ (acts : List (Action Sensor Call Extra Dyn)) (σ : Sys Sensor Call Extra T),
          Sys.run ty acts ⟨p0, []⟩ = some σ → σ.primary.workers.length = 1 := by
  refine ⟨_, CreatePrimary_value env timeout logger primarySensor calls, ?_, ?_⟩
  · cases env.CallAllFunctions primarySensor timeout none calls <;> rfl
  · intro acts σ hrun
    rw [sys_run_workers_length ty acts _ σ hrun]
    cases env.CallAllFunctions primarySensor timeout none calls <;> rfl

/-- C8 on a fresh controller, after the interleaving `raceTrace`. -/
theorem one_worker_witness :
    ∃ p0, CreatePrimary Sample.healthy 50 [] () [1, 2, 3] = some p0
      ∧ p0.workers.length = 1
      ∧ ∀ (acts : List (Action Unit Nat Unit Nat)) (σ : Sys Unit Nat Unit Nat),
          Sys.run Sample.natType acts ⟨p0, []⟩ = some σ → σ.primary.workers.length = 1 :=
  one_worker Sample.natType Sample.healthy 50 [] () [1, 2, 3]

end Proofs

/-! ## Properties of the wrappers -/

namespace powersensor

variable {Ctx Extra : Type}

/-- C9: each wrapper returns an error exactly when the resource is not a power sensor
(the assertion error, nothing invoked on the resource) or the underlying operation
returns an error (that same error); in both cases the result is nil (NaN for power).
Otherwise it returns no error and exactly the value, and for voltage and current the
AC flag, that the operation returned for the same extra options. -/
theorem wrappers_spec (ctx : Ctx) (s : Sensor Ctx Extra) (extra : Option Extra) :
    ((s.powerSensor = none →
        voltageWrapper ctx s extra =
          ⟨none, some ⟨"type assertion to power sensor failed"⟩, []⟩)
      ∧ (∀ ps volts isAc e, s.powerSensor = some ps →
          ps.Voltage ctx extra = (volts, isAc, some e) →
          voltageWrapper ctx s extra = ⟨none, some e, [Invocation.Voltage ctx extra]⟩)
      ∧ (∀ ps volts isAc, s.powerSensor = some ps →
          ps.Voltage ctx extra = (volts, isAc, none) →
          voltageWrapper ctx s extra =
            ⟨some ⟨volts, isAc⟩, none, [Invocation.Voltage ctx extra]⟩)
      ∧ ((voltageWrapper ctx s extra).err ≠ none ↔
          (s.powerSensor = none ∨
            ∃ ps, s.powerSensor = some ps ∧ (ps.Voltage ctx extra).2.2 ≠ none)))
    ∧ ((s.powerSensor = none →
        currentWrapper ctx s extra =
          ⟨none, some ⟨"type assertion to power sensor failed"⟩, []⟩)
      ∧ (∀ ps amps isAc e, s.powerSensor = some ps →
          ps.Current ctx extra = (amps, isAc, some e) →
          currentWrapper ctx s extra = ⟨none, some e, [Invocation.Current ctx extra]⟩)
      ∧ (∀ ps amps isAc, s.powerSensor = some ps →
          ps.Current ctx extra = (amps, isAc, none) →
          currentWrapper ctx s extra =
            ⟨some ⟨amps, isAc⟩, none, [Invocation.Current ctx extra]⟩)
      ∧ ((currentWrapper ctx s extra).err ≠ none ↔
          (s.powerSensor = none ∨
            ∃ ps, s.powerSensor = some ps ∧ (ps.Current ctx extra).2.2 ≠ none)))
    ∧ ((s.powerSensor = none →
        powerWrapper ctx s extra =
          ⟨NaN, some ⟨"type assertion to power sensor failed"⟩, []⟩)
      ∧ (∀ ps watts e, s.powerSensor = some ps →
          ps.Power ctx extra = (watts, some e) →
          powerWrapper ctx s extra = ⟨NaN, some e, [Invocation.Power ctx extra]⟩)
      ∧ (∀ ps watts, s.powerSensor = some ps →
          ps.Power ctx extra = (watts, none) →
          powerWrapper ctx s extra = ⟨watts, none, [Invocation.Power ctx extra]⟩)
      ∧ ((powerWrapper ctx s extra).err ≠ none ↔
          (s.powerSensor = none ∨
            ∃ ps, s.powerSensor = some ps ∧ (ps.Power ctx extra).2 ≠ none))) := by
  refine ⟨⟨?_, ?_, ?_, ?_⟩, ⟨?_, ?_, ?_, ?_⟩, ⟨?_, ?_, ?_, ?_⟩⟩
  · intro h; simp [voltageWrapper, convertToPowerSensor, h]
  · intro ps volts isAc e h hv; simp [voltageWrapper, convertToPowerSensor, h, hv]
  · intro ps volts isAc h hv; simp [voltageWrapper, convertToPowerSensor, h, hv]
  · cases h : s.powerSensor with
    | none => simp [voltageWrapper, convertToPowerSensor, h]
    | some ps =>
      rcases hv : ps.Voltage ctx extra with ⟨volts, isAc, _ | e⟩ <;>
        simp [voltageWrapper, convertToPowerSensor, h, hv]
  · intro h; simp [currentWrapper, convertToPowerSensor, h]
  · intro ps amps isAc e h hv; simp [currentWrapper, convertToPowerSensor, h, hv]
  · intro ps amps isAc h hv; simp [currentWrapper, convertToPowerSensor, h, hv]
  · cases h : s.powerSensor with
    | none => simp [currentWrapper, convertToPowerSensor, h]
    | some ps =>
      rcases hv : ps.Current ctx extra with ⟨amps, isAc, _ | e⟩ <;>
        simp [currentWrapper, convertToPowerSensor, h, hv]
  · intro h; simp [powerWrapper, convertToPowerSensor, h]
  · intro ps watts e h hv; simp [powerWrapper, convertToPowerSensor, h, hv]
  · intro ps watts h hv; simp [powerWrapper, convertToPowerSensor, h, hv]
  · cases h : s.powerSensor with
    | none => simp [powerWrapper, convertToPowerSensor, h]
    | some ps =>
      rcases hv : ps.Power ctx extra with ⟨watts, _ | e⟩ <;>
        simp [powerWrapper, convertToPowerSensor, h, hv]

/-- C9 on a resource that is no power sensor, on a broken meter and on a working one. -/
theorem wrappers_spec_witness :
    voltageWrapper () (⟨none⟩ : Sensor Unit Unit) none =
        ⟨none, some ⟨"type assertion to power sensor failed"⟩, []⟩
    ∧ currentWrapper () (⟨some brokenMeter⟩ : Sensor Unit Unit) none =
        ⟨none, some ⟨"no reading"⟩, [Invocation.Current () none]⟩
    ∧ powerWrapper () (⟨some sampleMeter⟩ : Sensor Unit Unit) none =
        ⟨⟨0x4038000000000000⟩, none, [Invocation.Power () none]⟩ :=
  ⟨(wrappers_spec () (⟨none⟩ : Sensor Unit Unit) none).1.1 rfl,
    (wrappers_spec () (⟨some brokenMeter⟩ : Sensor Unit Unit) none).2.1.2.1
      brokenMeter ⟨0⟩ false ⟨"no reading"⟩ rfl rfl,
    (wrappers_spec () (⟨some sampleMeter⟩ : Sensor Unit Unit) none).2.2.2.2.1
      sampleMeter ⟨0x4038000000000000⟩ rfl rfl⟩

end powersensor

end Failover
